import Mathlib

/-!
Verification development for the AlgoFresco repository
(step-by-step visualization of mutable data structures).

The Python sources under `algofresco/` are shallowly embedded below:
pure functions become Lean functions, the matplotlib/networkx rendering
calls are reflected as symbolic frame values recording exactly the data
the code passes to the drawing layer, and Python exceptions become
`Except String` errors.  The trace store (`tracer.py`) and the figure
helper (`ds.py`) are not among the available sources; the trace store
is modelled from the specification where needed and marked as such.
-/

namespace AlgoFresco

/-! ## A model of the Python values handled by `TreeVisualizer._tree_to_networkx`

`Py` represents the Python objects the tree builder dispatches on:
`pynone` is `None`; `prim s b` is an atomic value with `str()` form `s`
and truthiness `b`; `obj attrs s` is an object with attribute table
`attrs` and `str()` form `s`; `dict entries s` is a `dict` (its entries
are keys, not attributes); `pylist items s` is a Python list.
`PyAttrs`/`PyList` are association lists and lists of such values. -/
mutual
inductive Py where
  | pynone : Py
  | prim (s : String) (b : Bool) : Py
  | obj (attrs : PyAttrs) (s : String) : Py
  | dict (entries : PyAttrs) (s : String) : Py
  | pylist (items : PyList) (s : String) : Py
inductive PyAttrs where
  | nil : PyAttrs
  | cons (k : String) (v : Py) (rest : PyAttrs) : PyAttrs
inductive PyList where
  | nil : PyList
  | cons (v : Py) (rest : PyList) : PyList
end

/-- First binding of a key in an attribute/entry table. -/
def PyAttrs.lookup : PyAttrs → String → Option Py
  | .nil, _ => none
  | .cons k v rest, key => if k = key then some v else rest.lookup key

/-- Whether the table is empty (Python truthiness of a dict). -/
def PyAttrs.isEmpty : PyAttrs → Bool
  | .nil => true
  | .cons _ _ _ => false

/-- The elements of a Python list. -/
def PyList.toList : PyList → List Py
  | .nil => []
  | .cons v rest => v :: rest.toList

/-- Whether the list is empty (Python truthiness of a list). -/
def PyList.isEmpty : PyList → Bool
  | .nil => true
  | .cons _ _ => false

mutual
/-- A size measure, used only to supply enough recursion fuel. -/
def pySize : Py → Nat
  | .pynone => 1
  | .prim _ _ => 1
  | .obj attrs _ => 1 + attrsSize attrs
  | .dict es _ => 1 + attrsSize es
  | .pylist xs _ => 1 + plSize xs
/-- Size of an attribute table. -/
def attrsSize : PyAttrs → Nat
  | .nil => 0
  | .cons _ v rest => pySize v + attrsSize rest
/-- Size of a Python list. -/
def plSize : PyList → Nat
  | .nil => 0
  | .cons v rest => pySize v + plSize rest
end

/-- Python truthiness (`if x:`): `None` is falsy, objects are truthy,
dicts and lists are truthy iff non-empty, atoms carry their own flag. -/
def Py.truthy : Py → Bool
  | .pynone => false
  | .prim _ b => b
  | .obj _ _ => true
  | .dict es _ => !es.isEmpty
  | .pylist xs _ => !xs.isEmpty

/-- `str(x)` for the modelled values. -/
def Py.str : Py → String
  | .pynone => "None"
  | .prim s _ => s
  | .obj _ s => s
  | .dict _ s => s
  | .pylist _ s => s

/-- `hasattr(x, name)` for the structural attribute names the builder
probes (`left`, `right`, `children`); non-objects have none of them. -/
def Py.hasattr : Py → String → Bool
  | .obj attrs _, name => (attrs.lookup name).isSome
  | _, _ => false

/-- `getattr(x, name, default)`. -/
def Py.getattrD : Py → String → Py → Py
  | .obj attrs _, name, dflt => (attrs.lookup name).getD dflt
  | _, _, dflt => dflt

/-- `x.name` without a default: raises `AttributeError` when missing. -/
def Py.getattrE : Py → String → Except String Py
  | .obj attrs _, name =>
      match attrs.lookup name with
      | some v => .ok v
      | none => .error ("AttributeError: " ++ name)
  | _, name => .error ("AttributeError: " ++ name)

/-- `x.get(key, default)`: a `dict` method, errors on non-dicts. -/
def Py.dictGetD : Py → String → Py → Except String Py
  | .dict es _, key, dflt => .ok ((es.lookup key).getD dflt)
  | _, _, _ => .error "AttributeError: get"

/-- `isinstance(x, dict)`. -/
def Py.isDict : Py → Bool
  | .dict _ _ => true
  | _ => false

/-- `key in x` for a dict. -/
def Py.dictHas : Py → String → Bool
  | .dict es _, key => (es.lookup key).isSome
  | _, _ => false

/-- Iterating a value (`for child in xs`): only lists are iterable here. -/
def Py.asListE : Py → Except String (List Py)
  | .pylist xs _ => .ok xs.toList
  | _ => .error "TypeError: not iterable"

/-! ## A model of the `networkx.DiGraph` used by the tree builder

Nodes are kept in insertion order together with their `label` attribute
(`""` when a node was created by `add_edge` and no label was set yet);
edges are kept in insertion order. -/
structure Graph where
  nodes : List (Nat × String)
  edges : List (Nat × Nat)
deriving DecidableEq

/-- The empty `DiGraph`. -/
def Graph.empty : Graph := ⟨[], []⟩

/-- `len(G.nodes)` (node ids are distinct by construction). -/
def Graph.numNodes (g : Graph) : Nat := g.nodes.length

/-- `G.add_node(id, label=l)`: updates the label when the node exists,
otherwise appends a fresh node. -/
def Graph.addNode (g : Graph) (id : Nat) (l : String) : Graph :=
  if g.nodes.any (fun p => p.1 = id) then
    { g with nodes := g.nodes.map (fun p => if p.1 = id then (id, l) else p) }
  else
    { g with nodes := g.nodes ++ [(id, l)] }

/-- `G.add_edge(u, v)`: silently creates missing endpoints (with an
empty attribute set) before recording the edge. -/
def Graph.addEdge (g : Graph) (u v : Nat) : Graph :=
  let ns := if g.nodes.any (fun p => p.1 = u) then g.nodes else g.nodes ++ [(u, "")]
  let ns := if ns.any (fun p => p.1 = v) then ns else ns ++ [(v, "")]
  let es := if g.edges.contains (u, v) then g.edges else g.edges ++ [(u, v)]
  ⟨ns, es⟩

/-! ## `TreeVisualizer._tree_to_networkx` (tree.py lines 15–91) -/

/-- The label expression of the binary and children branches:
`str(getattr(node, 'val', getattr(node, 'value', node)))`. -/
def labelAttr (node : Py) : String :=
  (node.getattrD "val" (node.getattrD "value" node)).str

/-- The label expression of the dict branch:
`str(node.get('value', ''))`; errors when `node` has no `get`. -/
def labelDict (node : Py) : Except String String := do
  let v ← node.dictGetD "value" (Py.prim "" false)
  pure v.str

/-- `add_nodes` of the binary-tree branch (tree.py lines 30–48).
`fuel` bounds the recursion depth; every run below receives enough. -/
def addNodesBin : Nat → Py → Nat → Graph → Except String Graph
  | 0, _, _, _ => .error "RecursionError"
  | _ + 1, .pynone, _, g => .ok g
  | fuel + 1, node, nodeId, g => do
      let g := g.addNode nodeId (labelAttr node)
      let l ← node.getattrE "left"
      let g ← if l.truthy then
          let leftId := g.numNodes
          addNodesBin fuel l leftId (g.addEdge nodeId leftId)
        else pure g
      let r ← node.getattrE "right"
      if r.truthy then
        let rightId := g.numNodes
        addNodesBin fuel r rightId (g.addEdge nodeId rightId)
      else pure g

mutual
/-- `add_nodes` of the children-list branch (tree.py lines 54–68). -/
def addNodesChildren : Nat → Py → Nat → Graph → Except String Graph
  | 0, _, _, _ => .error "RecursionError"
  | _ + 1, .pynone, _, g => .ok g
  | fuel + 1, node, nodeId, g => do
      let g := g.addNode nodeId (labelAttr node)
      let cs ← node.getattrE "children"
      if cs.truthy then do
        let items ← cs.asListE
        childLoop fuel items nodeId g
      else pure g

/-- `for child in node.children: if child: …` of the children branch. -/
def childLoop : Nat → List Py → Nat → Graph → Except String Graph
  | _, [], _, g => .ok g
  | fuel, c :: cs, nodeId, g => do
      let g ← if c.truthy then
          let childId := g.numNodes
          addNodesChildren fuel c childId (g.addEdge nodeId childId)
        else pure g
      childLoop fuel cs nodeId g
end

mutual
/-- `add_nodes` of the dict branch (tree.py lines 74–87). -/
def addNodesDict : Nat → Py → Nat → Graph → Except String Graph
  | 0, _, _, _ => .error "RecursionError"
  | _ + 1, .pynone, _, g => .ok g
  | fuel + 1, node, nodeId, g => do
      let l ← labelDict node
      let g := g.addNode nodeId l
      let cs ← node.dictGetD "children" (Py.pylist .nil "[]")
      let items ← cs.asListE
      dictChildLoop fuel items nodeId g

/-- `for child in children: if child: …` of the dict branch. -/
def dictChildLoop : Nat → List Py → Nat → Graph → Except String Graph
  | _, [], _, g => .ok g
  | fuel, c :: cs, nodeId, g => do
      let g ← if c.truthy then
          let childId := g.numNodes
          addNodesDict fuel c childId (g.addEdge nodeId childId)
        else pure g
      dictChildLoop fuel cs nodeId g
end

/-- Shape (a): a node exposing `left` and `right` attributes. -/
def shapeBinary (p : Py) : Bool := p.hasattr "left" && p.hasattr "right"

/-- Shape (b): a node exposing a `children` attribute. -/
def shapeChildren (p : Py) : Bool := p.hasattr "children"

/-- Shape (c): a dict with a `'value'` key. -/
def shapeDict (p : Py) : Bool := p.isDict && p.dictHas "value"

/-- Whether the input matches any of the three admissible tree shapes. -/
def matchesAnyShape (p : Py) : Bool :=
  shapeBinary p || shapeChildren p || shapeDict p

/-- `TreeVisualizer._tree_to_networkx` (tree.py lines 15–91): dispatch on
the three node shapes; anything else yields the empty graph. -/
def treeToNetworkx (treeNode : Py) : Except String Graph :=
  let g := Graph.empty
  if shapeBinary treeNode then
    addNodesBin (pySize treeNode + 1) treeNode 0 g
  else if shapeChildren treeNode then
    addNodesChildren (pySize treeNode + 1) treeNode 0 g
  else if shapeDict treeNode then
    addNodesDict (pySize treeNode + 1) treeNode 0 g
  else
    .ok g

/-! Concrete binary tree of the specification's example: a `TreeNode`
class storing `val`, `left`, `right` (examples/tree.py), with root 1,
root.left 2, root.right 3 and root.left.right 4. -/

/-- Build one `TreeNode`-style object. -/
def tnode (v : String) (l r : Py) : Py :=
  Py.obj (.cons "val" (Py.prim v true) (.cons "left" l (.cons "right" r .nil)))
         ("TreeNode(" ++ v ++ ")")

/-- The example tree: root 1, left 2, right 3, left.right 4. -/
def c1Tree : Py :=
  tnode "1" (tnode "2" Py.pynone (tnode "4" Py.pynone Py.pynone))
            (tnode "3" Py.pynone Py.pynone)

/-! ## The Trace Store

`tracer.py` (`DataStructureTracer`) is not among the available sources;
the store is modelled from the specification (§3, §4.1). -/

/-- Per-step metadata: the auto-assigned `step`, the optional
`description`, and the `highlight_nodes` field the graph animation reads. -/
structure Metadata where
  step : Nat
  description : Option String
  highlightNodes : List Nat
deriving DecidableEq

/-- The empty metadata of the "no data" sentinel. -/
def Metadata.empty : Metadata := ⟨0, none, []⟩

/-- Modelled from the spec: the Trace Store (`tracer.py` is missing from
the sources) owns parallel append-only sequences of snapshots and
metadata (spec §3). -/
structure TraceStore (α : Type) where
  snapshots : List α
  metadata : List Metadata

/-- The store holding no captures. -/
def TraceStore.empty (α : Type) : TraceStore α := ⟨[], []⟩

/-- Modelled from the spec: `capture(state, metadata?)` (spec §4.1) appends
a deep structural copy of the state — in this pure embedding, the live
value at capture time — and merges the caller metadata with the
auto-assigned `step`, which equals the current number of snapshots. -/
def TraceStore.capture (st : TraceStore α) (state : α)
    (desc : Option String) (hn : List Nat) : TraceStore α :=
  { snapshots := st.snapshots ++ [state],
    metadata := st.metadata ++ [⟨st.snapshots.length, desc, hn⟩] }

/-- Modelled from the spec: `get_snapshot(step)` (spec §4.1): `-1` means
latest; an empty store yields the "no data" sentinel `(null state, empty
metadata)`; any other out-of-range step fails fast. -/
def TraceStore.getSnapshot (st : TraceStore α) (step : Int) :
    Except String (Option α × Metadata) :=
  if st.snapshots.isEmpty then .ok (none, Metadata.empty)
  else if step = -1 then
    .ok (st.snapshots.getLast?, (st.metadata.getLast?).getD Metadata.empty)
  else if 0 ≤ step ∧ step < (st.snapshots.length : Int) then
    .ok (st.snapshots.get? step.toNat, (st.metadata.get? step.toNat).getD Metadata.empty)
  else .error "invalid step"

/-- A producer-side event: either a `capture` call or a mutation of the
live structure (a pure transformation in this embedding). -/
inductive TraceOp (α : Type) where
  | capture (desc : Option String) : TraceOp α
  | mutate (f : α → α) : TraceOp α

/-- Run a sequence of events against a live value and a store. -/
def runOps (live : α) (st : TraceStore α) : List (TraceOp α) → α × TraceStore α
  | [] => (live, st)
  | .capture d :: ops => runOps live (st.capture live d []) ops
  | .mutate f :: ops => runOps (f live) st ops

/-- How many captures a sequence of events performs. -/
def countCaptures : List (TraceOp α) → Nat
  | [] => 0
  | .capture _ :: ops => countCaptures ops + 1
  | .mutate _ :: ops => countCaptures ops

/-- The live value at each capture, in capture order. -/
def capturedValues (live : α) : List (TraceOp α) → List α
  | [] => []
  | .capture _ :: ops => live :: capturedValues live ops
  | .mutate f :: ops => capturedValues (f live) ops

/-- The metadata recorded at each capture when the store already holds
`n` snapshots. -/
def capturedMd (n : Nat) : List (TraceOp α) → List Metadata
  | [] => []
  | .capture d :: ops => ⟨n, d, []⟩ :: capturedMd (n + 1) ops
  | .mutate _ :: ops => capturedMd n ops

/-! ## Frame titles

Every `display_snapshot` sets the title by the same three-way block
(`if title: … elif metadata.get('description'): … else: …`); the
animation `update` functions drop the first branch, except stack.py
whose `update` always interpolates the description. -/

/-- Python truthiness of an optional string (`if title:`): `None` and
the empty string are both falsy. -/
def strTruthy : Option String → Bool
  | none => false
  | some s => !(s == "")

/-- The `display_snapshot` title block (list.py 82–88, stack.py 55–60,
que.py 62–68, dict.py 76–82, graph.py 83–89, tree.py 159–165). -/
def displayTitle (title : Option String) (md : Metadata) : String :=
  if strTruthy title then title.getD ""
  else if strTruthy md.description then
    "Step " ++ toString md.step ++ ": " ++ md.description.getD ""
  else
    "Step " ++ toString md.step

/-- The animation `update` title block of the non-stack variants
(list.py 142–146, que.py 136–140, dict.py 150–154, graph.py 166–170,
tree.py 228–232). -/
def animTitle (md : Metadata) : String :=
  if strTruthy md.description then
    "Step " ++ toString md.step ++ ": " ++ md.description.getD ""
  else
    "Step " ++ toString md.step

/-- stack.py line 105:
`ax.set_title(f"Step {metadata['step']}: {metadata.get('description', '')}")`. -/
def stackAnimTitle (md : Metadata) : String :=
  "Step " ++ toString md.step ++ ": " ++ md.description.getD ""

/-! ## Rendering outcomes

A `display_snapshot` call either reports "No data available" and renders
nothing, reports an unsupported snapshot type (graph variant), completes
a frame, or raises (modelled as `err`). -/
inductive RenderResult (φ : Type) where
  | noData : RenderResult φ
  | unsupported : RenderResult φ
  | frame (f : φ) : RenderResult φ
  | err (msg : String) : RenderResult φ
deriving DecidableEq

/-! ## `ListVisualizer` (list.py) -/

/-- The symbolic content of a list frame: per-cell value texts and face
colors, the index texts below the cells, the highlight-range rectangles
actually drawn, and the title. -/
structure ListFrame where
  values : List String
  colors : List String
  indexLabels : List String
  rangeRects : List (Int × Int)
  title : String
deriving DecidableEq

/-- The per-cell face color (list.py 45–56): default grey, yellow-orange
when the index is highlighted, overridden by light blue when the value is
highlighted; both guards use Python truthiness of the argument lists. -/
def listCellColor [DecidableEq ε] (hi : List Int) (hv : List ε)
    (i : Nat) (v : ε) : String :=
  let c := "#f0f0f0"
  let c := if !hi.isEmpty && hi.contains (i : Int) then "#ffcf75" else c
  if !hv.isEmpty && hv.contains v then "#8dc7f3" else c

/-- Which highlight ranges are drawn (list.py 72–80): only those with
`0 <= start < list_len and 0 <= end < list_len`. -/
def inBoundsRange (listLen : Nat) (r : Int × Int) : Bool :=
  0 ≤ r.1 && r.1 < (listLen : Int) && 0 ≤ r.2 && r.2 < (listLen : Int)

/-- The drawing part of `ListVisualizer.display_snapshot` (list.py 37–94)
on the fetched data and metadata. -/
def listRender [DecidableEq ε] [ToString ε] (data : List ε) (md : Metadata)
    (hi : List Int) (hv : List ε) (ranges : List (Int × Int))
    (title : Option String) (showIndices : Bool) : ListFrame :=
  { values := data.map toString,
    colors := data.enum.map (fun p => listCellColor hi hv p.1 p.2),
    indexLabels := if showIndices then (List.range data.length).map toString else [],
    rangeRects := ranges.filter (inBoundsRange data.length),
    title := displayTitle title md }

/-- `ListVisualizer.display_snapshot` (list.py 14–94). -/
def listDisplaySnapshot [DecidableEq ε] [ToString ε] (st : TraceStore (List ε))
    (step : Int) (hi : List Int) (hv : List ε) (ranges : List (Int × Int))
    (title : Option String) (showIndices : Bool) : RenderResult ListFrame :=
  match st.getSnapshot step with
  | .error e => .err e
  | .ok (none, _) => .noData
  | .ok (some data, md) => .frame (listRender data md hi hv ranges title showIndices)

/-- One frame of the list animation (list.py `update`, lines 117–150). -/
structure ListAnimFrame where
  values : List String
  indexLabels : List String
  title : String
deriving DecidableEq

/-- The `update` closure of `ListVisualizer.create_animation`. -/
def listAnimUpdate [ToString ε] (st : TraceStore (List ε))
    (showIndices : Bool) (frame : Nat) : ListAnimFrame :=
  let data := st.snapshots.getD frame []
  let md := (st.metadata.get? frame).getD Metadata.empty
  { values := data.map toString,
    indexLabels := if showIndices then (List.range data.length).map toString else [],
    title := animTitle md }

/-- `ListVisualizer.create_animation` (list.py 96–156): `None` when the
store is empty, otherwise one frame per stored step in capture order. -/
def listCreateAnimation [ToString ε] (st : TraceStore (List ε))
    (showIndices : Bool) : Option (List ListAnimFrame) :=
  if st.snapshots.isEmpty then none
  else some ((List.range st.snapshots.length).map (listAnimUpdate st showIndices))

/-! ## `StackVisualizer` (stack.py) -/

/-- The symbolic content of a completed stack frame. -/
structure StackFrame where
  items : List String
  topHighlighted : Bool
  ylim : ℚ
  title : String
deriving DecidableEq

/-- `StackVisualizer.display_snapshot` (stack.py 10–62).  When the
captured stack is empty the "Empty Stack" text is drawn but
`element_height` was assigned only in the non-empty branch, so the
unconditional `ax.set_ylim(0, max(1, N * element_height))` (line 52)
raises `UnboundLocalError` and the frame is never completed. -/
def stackDisplaySnapshot [ToString ε] (st : TraceStore (List ε)) (step : Int)
    (highlightTop : Bool) (title : Option String) : RenderResult StackFrame :=
  match st.getSnapshot step with
  | .error e => .err e
  | .ok (none, _) => .noData
  | .ok (some data, md) =>
      let N := data.length
      if N = 0 then .err "UnboundLocalError: element_height"
      else
        let eh : ℚ := (4 / 5 : ℚ) / N
        .frame { items := data.map toString,
                 topHighlighted := highlightTop,
                 ylim := max 1 (N * eh),
                 title := displayTitle title md }

/-- One frame of the stack animation (stack.py `update`, lines 83–105):
`element_height` is guarded (`0.8 / N if N > 0 else 0`), the top is
highlighted whenever the stack is non-empty, and the title always
interpolates `metadata.get('description', '')`. -/
structure StackAnimFrame where
  items : List String
  topHighlighted : Bool
  ylim : ℚ
  title : String
deriving DecidableEq

/-- The `update` closure of `StackVisualizer.create_animation`. -/
def stackAnimUpdate [ToString ε] (st : TraceStore (List ε))
    (frame : Nat) : StackAnimFrame :=
  let data := st.snapshots.getD frame []
  let md := (st.metadata.get? frame).getD Metadata.empty
  let N := data.length
  let eh : ℚ := if N > 0 then (4 / 5 : ℚ) / N else 0
  { items := data.map toString,
    topHighlighted := decide (N > 0),
    ylim := max 1 (N * eh),
    title := stackAnimTitle md }

/-- `StackVisualizer.create_animation` (stack.py 64–110). -/
def stackCreateAnimation [ToString ε] (st : TraceStore (List ε)) :
    Option (List StackAnimFrame) :=
  if st.snapshots.isEmpty then none
  else some ((List.range st.snapshots.length).map (stackAnimUpdate st))

/-! ## `QueueVisualizer` (que.py) -/

/-- The symbolic content of a completed queue frame. -/
structure QueueFrame where
  items : List String
  frontRearHighlighted : Bool
  xlim : ℚ
  title : String
deriving DecidableEq

/-- `QueueVisualizer.display_snapshot` (que.py 9–75).  When the captured
queue is empty the "Empty Queue" text is drawn but `element_width` was
assigned only in the non-empty branch, so the unconditional
`main_ax.set_xlim(0, max(1, N * element_width))` (line 58) raises
`UnboundLocalError` and the frame is never completed. -/
def queueDisplaySnapshot [ToString ε] (st : TraceStore (List ε)) (step : Int)
    (highlightFrontRear : Bool) (title : Option String) : RenderResult QueueFrame :=
  match st.getSnapshot step with
  | .error e => .err e
  | .ok (none, _) => .noData
  | .ok (some data, md) =>
      let N := data.length
      if N = 0 then .err "UnboundLocalError: element_width"
      else
        let ew : ℚ := (4 / 5 : ℚ) / max 1 N
        .frame { items := data.map toString,
                 frontRearHighlighted := highlightFrontRear,
                 xlim := max 1 (N * ew),
                 title := displayTitle title md }

/-- One frame of the queue animation (que.py `update`, lines 99–144);
an empty queue frame raises the same `UnboundLocalError` at line 133. -/
structure QueueAnimFrame where
  items : List String
  frontRearHighlighted : Bool
  xlim : ℚ
  title : String
deriving DecidableEq

/-- The `update` closure of `QueueVisualizer.create_animation`. -/
def queueAnimUpdate [ToString ε] (st : TraceStore (List ε))
    (frame : Nat) : Except String QueueAnimFrame :=
  let data := st.snapshots.getD frame []
  let md := (st.metadata.get? frame).getD Metadata.empty
  let N := data.length
  if N = 0 then .error "UnboundLocalError: element_width"
  else
    let ew : ℚ := (4 / 5 : ℚ) / max 1 N
    .ok { items := data.map toString,
          frontRearHighlighted := true,
          xlim := max 1 (N * ew),
          title := animTitle md }

/-- `QueueVisualizer.create_animation` (que.py 77–151). -/
def queueCreateAnimation [ToString ε] (st : TraceStore (List ε)) :
    Option (List (Except String QueueAnimFrame)) :=
  if st.snapshots.isEmpty then none
  else some ((List.range st.snapshots.length).map (queueAnimUpdate st))

/-! ## `DictionaryVisualizer` (dict.py) -/

/-- The symbolic content of a dictionary frame: for each item in
insertion order, the key text, value text, key color and value color;
an empty entry list stands for the "Empty Dictionary" text. -/
structure DictFrame where
  entries : List (String × String × String × String)
  title : String
deriving DecidableEq

/-- `DictionaryVisualizer.display_snapshot` (dict.py 15–88). -/
def dictDisplaySnapshot [DecidableEq κ] [ToString κ] [DecidableEq υ] [ToString υ]
    (st : TraceStore (List (κ × υ))) (step : Int) (hk : List κ) (hv : List υ)
    (title : Option String) : RenderResult DictFrame :=
  match st.getSnapshot step with
  | .error e => .err e
  | .ok (none, _) => .noData
  | .ok (some items, md) =>
      .frame { entries := items.map (fun p =>
                 (toString p.1, toString p.2,
                  if !hk.isEmpty && hk.contains p.1 then "#ffcf75" else "#f0f0f0",
                  if !hv.isEmpty && hv.contains p.2 then "#8dc7f3" else "#f0f0f0")),
               title := displayTitle title md }

/-- One frame of the dictionary animation (dict.py `update`, 109–158):
all cells default-colored. -/
structure DictAnimFrame where
  entries : List (String × String)
  title : String
deriving DecidableEq

/-- The `update` closure of `DictionaryVisualizer.create_animation`. -/
def dictAnimUpdate [ToString κ] [ToString υ] (st : TraceStore (List (κ × υ)))
    (frame : Nat) : DictAnimFrame :=
  let items := st.snapshots.getD frame []
  let md := (st.metadata.get? frame).getD Metadata.empty
  { entries := items.map (fun p => (toString p.1, toString p.2)),
    title := animTitle md }

/-- `DictionaryVisualizer.create_animation` (dict.py 90–164). -/
def dictCreateAnimation [ToString κ] [ToString υ] (st : TraceStore (List (κ × υ))) :
    Option (List DictAnimFrame) :=
  if st.snapshots.isEmpty then none
  else some ((List.range st.snapshots.length).map (dictAnimUpdate st))

/-! ## Layout algorithms (external `networkx` collaborators)

Node positions are abstract tokens.  `spring_layout` is randomized: it
is modelled as a function of the graph and of the state of the random
stream at call time, and each call advances the stream.  The other
layouts are deterministic.  `graphviz_layout(prog='dot')` may be
unavailable (the `except` fallback in tree.py), hence `gvAvailable`. -/
def Pos := List (Nat × Nat)
deriving DecidableEq

/-- The layout functions the visualizers call. -/
structure LayoutEnv where
  spring : Graph → Nat → Pos
  circular : Graph → Pos
  kamada : Graph → Pos
  shell : Graph → Pos
  gvAvailable : Bool
  gvDot : Graph → Pos

/-- The layout dispatch of `GraphVisualizer` (graph.py 44–53 in
`display_snapshot`, 115–124 in `create_animation`): spring, circular,
kamada_kawai, shell, anything else falls back to spring.  Returns the
positions and the advanced random stream. -/
def chooseGraphLayout (env : LayoutEnv) (layout : String) (g : Graph)
    (rng : Nat) : Pos × Nat :=
  if layout = "spring" then (env.spring g rng, rng + 1)
  else if layout = "circular" then (env.circular g, rng)
  else if layout = "kamada_kawai" then (env.kamada g, rng)
  else if layout = "shell" then (env.shell g, rng)
  else (env.spring g rng, rng + 1)

/-- The layout dispatch of `TreeVisualizer` (tree.py 135–145 in
`display_snapshot`, 206–214 in `update`): `'dot'` tries graphviz and
falls back to spring, `'circular'` is circular, anything else is spring. -/
def chooseTreeLayout (env : LayoutEnv) (layout : String) (g : Graph)
    (rng : Nat) : Pos × Nat :=
  if layout = "dot" then
    if env.gvAvailable then (env.gvDot g, rng) else (env.spring g rng, rng + 1)
  else if layout = "circular" then (env.circular g, rng)
  else (env.spring g rng, rng + 1)

/-! ## `GraphVisualizer` (graph.py) -/

/-- Edge colors of `GraphVisualizer.display_snapshot` (graph.py 63–73):
when the highlight list is truthy, the set of both orientations of every
highlighted pair is built and each stored edge found in it is red. -/
def edgeColors (edges : List (Nat × Nat)) (hl : List (Nat × Nat)) : List String :=
  if hl.isEmpty then edges.map (fun _ => "#666666")
  else
    let hset := hl ++ hl.map (fun e => (e.2, e.1))
    edges.map (fun e => if e ∈ hset then "red" else "#666666")

/-- Node colors of `GraphVisualizer.display_snapshot` (graph.py 55–61). -/
def graphNodeColors (ns : List (Nat × String)) (hn : List Nat) : List String :=
  ns.map (fun p => if !hn.isEmpty && hn.contains p.1 then "#ff7f7f" else "#aed9e6")

/-- A completed graph frame: either the "Empty Graph" text or the drawn
graph with its positions, per-node colors, per-edge colors and title. -/
inductive GraphFrame where
  | emptyGraph : GraphFrame
  | drawn (pos : Pos) (nodeColors : List String) (edgeColors : List String)
      (title : String) : GraphFrame
deriving DecidableEq

/-- `GraphVisualizer.display_snapshot` (graph.py 13–96).  Snapshots are
`some g` for an `nx.Graph` and `none` for any other captured object
("Unsupported graph type").  Still-frame display recomputes the layout
freely from the current random stream. -/
def graphDisplaySnapshot (env : LayoutEnv) (rng : Nat)
    (st : TraceStore (Option Graph)) (step : Int) (hn : List Nat)
    (he : List (Nat × Nat)) (layout : String) (title : Option String) :
    RenderResult GraphFrame :=
  match st.getSnapshot step with
  | .error e => .err e
  | .ok (none, _) => .noData
  | .ok (some dat, md) =>
      match dat with
      | none => .unsupported
      | some g =>
          if g.nodes.isEmpty then .frame .emptyGraph
          else
            let (pos, _) := chooseGraphLayout env layout g rng
            .frame (.drawn pos (graphNodeColors g.nodes hn)
                      (edgeColors g.edges he) (displayTitle title md))

/-- The layout precomputation of `GraphVisualizer.create_animation`
(graph.py 110–127): one layout per stored snapshot, computed before the
animation starts; non-graph snapshots get `None`. -/
def precomputeLayouts (env : LayoutEnv) (layout : String)
    (snaps : List (Option Graph)) (rng : Nat) : List (Option Pos) × Nat :=
  snaps.foldl (fun acc dat =>
    match dat with
    | some g =>
        let (p, r2) := chooseGraphLayout env layout g acc.2
        (acc.1 ++ [some p], r2)
    | none => (acc.1 ++ [none], acc.2)) ([], rng)

/-- One frame of the graph animation (graph.py `update`, 129–172). -/
inductive GraphAnimFrame where
  | unsupported : GraphAnimFrame
  | emptyGraph : GraphAnimFrame
  | drawn (pos : Pos) (nodeColors : List String) (title : String) : GraphAnimFrame
deriving DecidableEq

/-- The `update` closure of `GraphVisualizer.create_animation`: it takes
the positions from the precomputed `pos_frames` and performs no layout
call, so the random stream `rng` at call time is unused. -/
def graphAnimUpdate (st : TraceStore (Option Graph))
    (posFrames : List (Option Pos)) (frame : Nat) (rng : Nat) : GraphAnimFrame :=
  let dat := st.snapshots.getD frame none
  let md := (st.metadata.get? frame).getD Metadata.empty
  let pos := posFrames.getD frame none
  match dat, pos with
  | some g, some p =>
      if g.nodes.isEmpty then .emptyGraph
      else
        .drawn p (g.nodes.map (fun q =>
            if md.highlightNodes.contains q.1 then "#ff7f7f" else "#aed9e6"))
          (animTitle md)
  | _, _ => .unsupported

/-- `GraphVisualizer.create_animation` (graph.py 98–178). -/
def graphCreateAnimation (env : LayoutEnv) (layout : String)
    (st : TraceStore (Option Graph)) (rng : Nat) : Option (List GraphAnimFrame) :=
  if st.snapshots.isEmpty then none
  else
    let posFrames := (precomputeLayouts env layout st.snapshots rng).1
    some ((List.range st.snapshots.length).map (fun i => graphAnimUpdate st posFrames i 0))

/-! ## `TreeVisualizer` rendering (tree.py) -/

/-- A completed tree frame: either the "Empty Tree" text or the drawn
canonical graph with positions, per-node colors, labels and title. -/
inductive TreeFrame where
  | emptyTree : TreeFrame
  | drawn (pos : Pos) (nodeColors : List String) (labels : List (Nat × String))
      (title : String) : TreeFrame
deriving DecidableEq

/-- `TreeVisualizer.display_snapshot` (tree.py 93–169): converts the
snapshot by `_tree_to_networkx`, highlights nodes whose label equals the
string form of a requested value, and recomputes the layout freely. -/
def treeDisplaySnapshot (env : LayoutEnv) (rng : Nat) (st : TraceStore Py)
    (step : Int) (hl : List Py) (layout : String) (title : Option String) :
    RenderResult TreeFrame :=
  match st.getSnapshot step with
  | .error e => .err e
  | .ok (none, _) => .noData
  | .ok (some dat, md) =>
      match treeToNetworkx dat with
      | .error e => .err e
      | .ok g =>
          if g.nodes.isEmpty then .frame .emptyTree
          else
            let strs := hl.map Py.str
            let colors := g.nodes.map (fun p =>
              if !hl.isEmpty && strs.contains p.2 then "#ff7f7f" else "#aed9e6")
            let (pos, _) := chooseTreeLayout env layout g rng
            .frame (.drawn pos colors g.nodes (displayTitle title md))

/-- The `update` closure of `TreeVisualizer.create_animation` (tree.py
192–234): the layout is chosen inside the update, at every frame call,
from the random stream at that moment; the advanced stream is returned. -/
def treeAnimUpdate (env : LayoutEnv) (layout : String) (st : TraceStore Py)
    (frame : Nat) (rng : Nat) : Except String (TreeFrame × Nat) :=
  let dat := st.snapshots.getD frame Py.pynone
  let md := (st.metadata.get? frame).getD Metadata.empty
  match treeToNetworkx dat with
  | .error e => .error e
  | .ok g =>
      if g.nodes.isEmpty then .ok (.emptyTree, rng)
      else
        let (pos, rng2) := chooseTreeLayout env layout g rng
        .ok (.drawn pos (g.nodes.map (fun _ => "#aed9e6")) g.nodes (animTitle md), rng2)

/-- `TreeVisualizer.create_animation` (tree.py 171–240): `None` on an
empty store, otherwise one frame per stored step with the random stream
threaded through the per-frame layout calls. -/
def treeCreateAnimation (env : LayoutEnv) (layout : String) (st : TraceStore Py)
    (rng : Nat) : Option (List (Except String TreeFrame)) :=
  if st.snapshots.isEmpty then none
  else
    let step := fun (acc : List (Except String TreeFrame) × Nat) (i : Nat) =>
      match treeAnimUpdate env layout st i acc.2 with
      | .error e => (acc.1 ++ [.error e], acc.2)
      | .ok (f, r2) => (acc.1 ++ [.ok f], r2)
    some (((List.range st.snapshots.length).foldl step ([], rng)).1)

/-! ## Auxiliary definitions for the verification statements -/

/-- The label rule as the spec states it: the string form of the `val`
attribute if present, else of the `value` the node exposes (an attribute
for object nodes, the `value` entry for a shape-(c) mapping), else the
string form of the node itself. -/
def specLabel (p : Py) : String :=
  match p with
  | .obj attrs _ =>
      match attrs.lookup "val" with
      | some v => v.str
      | none =>
          match attrs.lookup "value" with
          | some v => v.str
          | none => p.str
  | .dict es _ =>
      match es.lookup "value" with
      | some v => v.str
      | none => p.str
  | _ => p.str

/-- The canonical graph the code actually builds from `c1Tree`. -/
def c1Built : Graph :=
  ⟨[(0, "1"), (1, "2"), (2, "4"), (3, "3")], [(0, 1), (1, 2), (0, 3)]⟩

/-- Metadata of a step-0 capture without a description. -/
def mdZero : Metadata := ⟨0, none, []⟩

/-- A one-node binary tree snapshot. -/
def leafTree : Py := tnode "1" Py.pynone Py.pynone

/-- A store holding a single tree snapshot. -/
def leafStore : TraceStore Py := ⟨[leafTree], [mdZero]⟩

/-- A layout environment whose randomized spring layout visibly depends
on the state of the random stream (every node is placed at the current
stream value); the deterministic layouts are arbitrary. -/
def varEnv : LayoutEnv where
  spring := fun g r => g.nodes.map (fun p => (p.1, r))
  circular := fun g => g.nodes.map (fun p => (p.1, 0))
  kamada := fun g => g.nodes.map (fun p => (p.1, 0))
  shell := fun g => g.nodes.map (fun p => (p.1, 0))
  gvAvailable := false
  gvDot := fun g => g.nodes.map (fun p => (p.1, 0))

end AlgoFresco

deriving instance DecidableEq for Except

namespace AlgoFresco

/-! ## Claim C1 — preorder ids and edges of the example tree -/

/-- C1 counterexample: on the binary tree root=1, left=2, right=3,
left.right=4, the builder yields nodes `{0:"1", 1:"2", 2:"4", 3:"3"}`
and edges `[(0,1),(1,2),(0,3)]`.  The claim asserts id 2 for the right
child (value 3) and an edge `(0,2)`; the code gives the right child
id 3 and has no edge `(0,2)`. -/
theorem c1_counterexample :
    treeToNetworkx c1Tree = Except.ok c1Built ∧
    ((2, "3") ∉ c1Built.nodes ∧ (3, "3") ∈ c1Built.nodes ∧
     (0, 2) ∉ c1Built.edges ∧ (1, 2) ∈ c1Built.edges) :=
  ⟨rfl, by decide⟩

/-- C1 (amended): for the binary-tree snapshot root=1, left=2, right=3,
left.right=4, `_tree_to_networkx` produces exactly 4 nodes with true
preorder ids root=0, left=1, left.right=2, right=3 (labels "1", "2",
"4", "3") and exactly the edges `{(0,1), (1,2), (0,3)}`. -/
theorem c1_preorder_ids_amended : treeToNetworkx c1Tree = Except.ok c1Built := rfl

/-! ## Claim C7 — unrecognized shapes give an empty graph -/

/-- C7: for every input that is null or matches none of the three
admissible tree shapes, `_tree_to_networkx` returns the empty graph
(no nodes, no edges) and raises no error. -/
theorem c7_unrecognized_shape_empty_graph (p : Py)
    (h : matchesAnyShape p = false) :
    treeToNetworkx p = Except.ok Graph.empty := by
  unfold matchesAnyShape at h
  simp only [Bool.or_eq_false_iff] at h
  obtain ⟨⟨h1, h2⟩, h3⟩ := h
  simp [treeToNetworkx, h1, h2, h3]

/-- C7 witness: the null input matches no shape and yields the empty
graph without an error. -/
theorem c7_witness :
    matchesAnyShape Py.pynone = false ∧
    treeToNetworkx Py.pynone = Except.ok Graph.empty :=
  ⟨by decide, c7_unrecognized_shape_empty_graph Py.pynone (by decide)⟩

/-! ## Claim C9 — the label rule -/

/-- C9: for every node of an admissible shape, the label the builder
computes for it agrees with the spec rule `specLabel`: the string form
of the `val` attribute if present, else of the exposed `value`, else of
the node itself.  Shapes (a) and (b) use `labelAttr`, shape (c) uses
`labelDict`; these are exactly the expressions `add_nodes` evaluates at
each visited node (tree.py lines 35, 59, 79). -/
theorem c9_label_rule (p : Py) :
    ((shapeBinary p = true ∨ shapeChildren p = true) → labelAttr p = specLabel p) ∧
    (shapeDict p = true → labelDict p = Except.ok (specLabel p)) := by
  constructor
  · intro hshape
    cases p with
    | pynone => simp [shapeBinary, shapeChildren, Py.hasattr] at hshape
    | prim s b => simp [shapeBinary, shapeChildren, Py.hasattr] at hshape
    | pylist xs s => simp [shapeBinary, shapeChildren, Py.hasattr] at hshape
    | dict es s => simp [shapeBinary, shapeChildren, Py.hasattr] at hshape
    | obj attrs s =>
        unfold labelAttr specLabel Py.getattrD
        cases hv : attrs.lookup "val" with
        | some v => simp [hv]
        | none =>
            cases hw : attrs.lookup "value" with
            | some w => simp [hv, hw]
            | none => simp [hv, hw]
  · intro hshape
    cases p with
    | pynone => simp [shapeDict, Py.isDict] at hshape
    | prim s b => simp [shapeDict, Py.isDict] at hshape
    | pylist xs s => simp [shapeDict, Py.isDict] at hshape
    | obj attrs s => simp [shapeDict, Py.isDict] at hshape
    | dict es s =>
        unfold shapeDict Py.dictHas at hshape
        unfold labelDict specLabel Py.dictGetD
        cases hv : es.lookup "value" with
        | some v => simp [hv, Except.pure]
        | none => simp [hv, Py.isDict] at hshape

/-- C9 witness: a binary-shape node with a `val` attribute and a
mapping with a `value` entry both follow the spec label rule. -/
theorem c9_witness :
    labelAttr (tnode "7" Py.pynone Py.pynone) = specLabel (tnode "7" Py.pynone Py.pynone) ∧
    labelDict (Py.dict (.cons "value" (Py.prim "5" true) .nil) "mapping") =
      Except.ok (specLabel (Py.dict (.cons "value" (Py.prim "5" true) .nil) "mapping")) :=
  ⟨(c9_label_rule (tnode "7" Py.pynone Py.pynone)).1 (Or.inl (by decide)),
   (c9_label_rule (Py.dict (.cons "value" (Py.prim "5" true) .nil) "mapping")).2 (by decide)⟩

/-! ## Claim C5 — undirected edge highlighting -/

/-- C5: in `GraphVisualizer.display_snapshot`, a stored edge is colored
as highlighted if and only if it equals `(u,v)` or `(v,u)` for some
`(u,v)` in the highlight list. -/
theorem c5_undirected_edge_highlight (edges hl : List (Nat × Nat)) (i : Nat)
    (e : Nat × Nat) (hi : edges.get? i = some e) :
    (edgeColors edges hl).get? i = some "red" ↔
      ∃ u v, (u, v) ∈ hl ∧ (e = (u, v) ∨ e = (v, u)) := by
  unfold edgeColors
  by_cases hemp : hl.isEmpty = true
  · rw [if_pos hemp, List.get?_map, hi]
    simp only [Option.map_some']
    constructor
    · intro h
      exact absurd (Option.some.inj h) (by decide)
    · rintro ⟨u, v, hm, _⟩
      rw [List.isEmpty_iff] at hemp
      subst hemp
      simp at hm
  · rw [if_neg hemp]
    simp only []
    rw [List.get?_map, hi]
    simp only [Option.map_some', Option.some_inj]
    constructor
    · intro h
      by_cases hc : e ∈ hl ++ hl.map (fun x => (x.2, x.1))
      · rcases List.mem_append.mp hc with hmem | hmem
        · exact ⟨e.1, e.2, hmem, Or.inl rfl⟩
        · rcases List.mem_map.mp hmem with ⟨x, hx, hxe⟩
          exact ⟨x.1, x.2, hx, Or.inr (by rw [← hxe])⟩
      · rw [if_neg hc] at h
        exact absurd h (by decide)
    · rintro ⟨u, v, hm, he2 | he2⟩
      · subst he2
        rw [if_pos (List.mem_append.mpr (Or.inl hm))]
      · subst he2
        exact if_pos (List.mem_append.mpr (Or.inr (List.mem_map.mpr ⟨(u, v), hm, rfl⟩)))

/-- C5 witness: highlighting `(1,2)` colors a stored edge recorded as
`(2,1)` red. -/
theorem c5_witness : (edgeColors [(2, 1)] [(1, 2)]).get? 0 = some "red" :=
  (c5_undirected_edge_highlight [(2, 1)] [(1, 2)] 0 (2, 1) rfl).mpr
    ⟨1, 2, by decide, Or.inr rfl⟩

/-! ## Claim C8 — out-of-bounds highlight ranges are ignored -/

/-- Erasing an element that fails the filter predicate does not change
the filtered list. -/
theorem filter_erase_of_not {α : Type} [BEq α] [LawfulBEq α] (p : α → Bool)
    (l : List α) (a : α) (h : p a = false) :
    (l.erase a).filter p = l.filter p := by
  induction l with
  | nil => rfl
  | cons b t ih =>
    rw [List.erase_cons]
    cases hb : b == a with
    | true =>
        have hba : b = a := eq_of_beq hb
        simp [hb, List.filter_cons, hba, h]
    | false => simp [hb, List.filter_cons, ih]

/-- C8: a highlight range with an endpoint outside `[0, L)` is silently
ignored: the rendered frame is identical to the one produced with that
range removed from the request, so the valid highlight indices, values
and ranges still render exactly as before. -/
theorem c8_out_of_bounds_range_ignored {ε : Type} [DecidableEq ε] [ToString ε]
    (st : TraceStore (List ε)) (step : Int) (hi : List Int) (hv : List ε)
    (ranges : List (Int × Int)) (r : Int × Int) (data : List ε) (md : Metadata)
    (title : Option String) (showIndices : Bool)
    (hget : st.getSnapshot step = .ok (some data, md))
    (hmem : r ∈ ranges)
    (hoob : inBoundsRange data.length r = false) :
    listDisplaySnapshot st step hi hv ranges title showIndices =
      listDisplaySnapshot st step hi hv (ranges.erase r) title showIndices := by
  unfold listDisplaySnapshot
  rw [hget]
  show RenderResult.frame (listRender data md hi hv ranges title showIndices) =
    RenderResult.frame (listRender data md hi hv (ranges.erase r) title showIndices)
  unfold listRender
  rw [filter_erase_of_not (inBoundsRange data.length) ranges r hoob]

/-- Store for the C8 witness: one snapshot of the 5-element list
`[10, 20, 30, 40, 50]`. -/
def c8Store : TraceStore (List Nat) := ⟨[[10, 20, 30, 40, 50]], [mdZero]⟩

/-- C8 witness: on the 5-element list, requesting the range `(2,10)`
renders the same frame as omitting it, with index and value highlights
intact. -/
theorem c8_witness :
    listDisplaySnapshot c8Store 0 [0] [30] [(2, 10)] none true =
      listDisplaySnapshot c8Store 0 [0] [30] ([(2, 10)].erase (2, 10)) none true :=
  c8_out_of_bounds_range_ignored c8Store 0 [0] [30] [(2, 10)] (2, 10)
    [10, 20, 30, 40, 50] mdZero none true rfl (by decide) (by decide)

/-! ## Claim C10 — empty stack/queue snapshots crash `display_snapshot` -/

/-- C10: when the captured stack (queue) is empty, `display_snapshot`
reaches the unconditional axis-limit call with `element_height`
(`element_width`) never assigned, raises an unbound-local error, and the
"Empty Stack" / "Empty Queue" frame is never completed. -/
theorem c10_empty_snapshot_unbound_local {ε : Type} [ToString ε]
    (st : TraceStore (List ε)) (step : Int) (md : Metadata)
    (highlightTop highlightFrontRear : Bool) (title : Option String)
    (hget : st.getSnapshot step = .ok (some ([] : List ε), md)) :
    stackDisplaySnapshot st step highlightTop title =
      .err "UnboundLocalError: element_height" ∧
    queueDisplaySnapshot st step highlightFrontRear title =
      .err "UnboundLocalError: element_width" := by
  constructor
  · unfold stackDisplaySnapshot
    rw [hget]
    rfl
  · unfold queueDisplaySnapshot
    rw [hget]
    rfl

/-- Store for the C10 witness: one snapshot of an empty stack/queue. -/
def c10Store : TraceStore (List Nat) := ⟨[[]], [mdZero]⟩

/-- C10 witness: displaying the empty stack/queue snapshot raises the
unbound-local error. -/
theorem c10_witness :
    stackDisplaySnapshot c10Store 0 true none =
      .err "UnboundLocalError: element_height" ∧
    queueDisplaySnapshot c10Store 0 true none =
      .err "UnboundLocalError: element_width" :=
  c10_empty_snapshot_unbound_local c10Store 0 mdZero true true none rfl

/-! ## Claim C4 — title precedence -/

/-- C4 counterexample: the stack animation frame for a step without a
description is titled `"Step 0: "`, not the bare `"Step 0"` the claim
requires for every variant; and an explicitly supplied empty title is
ignored rather than used. -/
theorem c4_counterexample :
    (stackAnimUpdate c10Store 0).title = "Step 0: " ∧
    "Step 0: " ≠ "Step 0" ∧
    displayTitle (some "") mdZero = "Step 0" ∧ some "" ≠ (none : Option String) :=
  ⟨rfl, by decide, by decide, by decide⟩

/-- C4 (amended): in `display_snapshot` of every variant the title is
the caller title when it is non-empty, else `"Step n: description"` when
the metadata description is present and non-empty, else `"Step n"`; the
animation frames of every variant except Stack follow the same last two
rules (no caller title exists there); the Stack animation titles every
frame `"Step n: "` followed by the description or the empty string. -/
theorem c4_title_precedence (t : String) (md : Metadata) :
    (t ≠ "" → displayTitle (some t) md = t) ∧
    (∀ title : Option String, strTruthy title = false →
        strTruthy md.description = true →
        displayTitle title md =
          "Step " ++ toString md.step ++ ": " ++ md.description.getD "") ∧
    (∀ title : Option String, strTruthy title = false →
        strTruthy md.description = false →
        displayTitle title md = "Step " ++ toString md.step) ∧
    (animTitle md = displayTitle none md) ∧
    (stackAnimTitle md =
      "Step " ++ toString md.step ++ ": " ++ md.description.getD "") := by
  refine ⟨?_, ?_, ?_, ?_, rfl⟩
  · intro ht
    unfold displayTitle strTruthy
    simp [ht]
  · intro title htf hdt
    unfold displayTitle
    rw [htf, hdt]
    rfl
  · intro title htf hdf
    unfold displayTitle
    rw [htf, hdf]
    rfl
  · unfold animTitle displayTitle strTruthy
    rfl

/-- C4 witness: with step 2 and description "d", an explicit title "T"
wins in display, the description titles the frame otherwise, and the
stack animation interpolates the description after the colon. -/
theorem c4_witness :
    displayTitle (some "T") ⟨2, some "d", []⟩ = "T" ∧
    displayTitle none ⟨2, some "d", []⟩ = "Step 2: d" ∧
    stackAnimTitle ⟨2, some "d", []⟩ = "Step 2: d" := by
  refine ⟨(c4_title_precedence "T" ⟨2, some "d", []⟩).1 (by decide), ?_, ?_⟩
  · have h := (c4_title_precedence "T" ⟨2, some "d", []⟩).2.1 none (by decide) (by decide)
    simpa using h
  · have h := (c4_title_precedence "T" ⟨2, some "d", []⟩).2.2.2.2
    simpa using h

/-! ## Claim C6 — empty trace store -/

/-- C6: on an empty Trace Store every variant reports "no data":
`display_snapshot` renders no frame and `create_animation` returns no
frame sequence, and neither fails with an error.  (`get_snapshot` is the
spec-modelled sentinel, since tracer.py is not among the sources.) -/
theorem c6_empty_store_no_data {ε κ υ : Type} [DecidableEq ε] [ToString ε]
    [DecidableEq κ] [ToString κ] [DecidableEq υ] [ToString υ]
    (stL stS stQ : TraceStore (List ε)) (stD : TraceStore (List (κ × υ)))
    (stG : TraceStore (Option Graph)) (stT : TraceStore Py)
    (hL : stL.snapshots = []) (hS : stS.snapshots = []) (hQ : stQ.snapshots = [])
    (hD : stD.snapshots = []) (hG : stG.snapshots = []) (hT : stT.snapshots = [])
    (step : Int) (hi : List Int) (hv : List ε) (ranges : List (Int × Int))
    (title : Option String) (showIndices highlightTop hfr : Bool)
    (hk : List κ) (hdv : List υ) (hn : List Nat) (he : List (Nat × Nat))
    (env : LayoutEnv) (rng : Nat) (layout : String) (hl : List Py) :
    listDisplaySnapshot stL step hi hv ranges title showIndices = .noData ∧
    listCreateAnimation stL showIndices = none ∧
    stackDisplaySnapshot stS step highlightTop title = .noData ∧
    stackCreateAnimation stS = none ∧
    queueDisplaySnapshot stQ step hfr title = .noData ∧
    queueCreateAnimation stQ = none ∧
    dictDisplaySnapshot stD step hk hdv title = .noData ∧
    dictCreateAnimation stD = none ∧
    graphDisplaySnapshot env rng stG step hn he layout title = .noData ∧
    graphCreateAnimation env layout stG rng = none ∧
    treeDisplaySnapshot env rng stT step hl layout title = .noData ∧
    treeCreateAnimation env layout stT rng = none := by
  refine ⟨?_, ?_, ?_, ?_, ?_, ?_, ?_, ?_, ?_, ?_, ?_, ?_⟩ <;>
    simp [listDisplaySnapshot, listCreateAnimation, stackDisplaySnapshot,
      stackCreateAnimation, queueDisplaySnapshot, queueCreateAnimation,
      dictDisplaySnapshot, dictCreateAnimation, graphDisplaySnapshot,
      graphCreateAnimation, treeDisplaySnapshot, treeCreateAnimation,
      TraceStore.getSnapshot, hL, hS, hQ, hD, hG, hT]

/-- C6 witness: the freshly created empty stores all report "no data". -/
theorem c6_witness :
    listDisplaySnapshot (TraceStore.empty (List Nat)) 0 [] [] [] none true = .noData ∧
    listCreateAnimation (TraceStore.empty (List Nat)) true = none ∧
    stackDisplaySnapshot (TraceStore.empty (List Nat)) 0 true none = .noData ∧
    stackCreateAnimation (TraceStore.empty (List Nat)) = none ∧
    queueDisplaySnapshot (TraceStore.empty (List Nat)) 0 true none = .noData ∧
    queueCreateAnimation (TraceStore.empty (List Nat)) = none ∧
    dictDisplaySnapshot (TraceStore.empty (List (Nat × Nat))) 0 [] [] none = .noData ∧
    dictCreateAnimation (TraceStore.empty (List (Nat × Nat))) = none ∧
    graphDisplaySnapshot varEnv 0 (TraceStore.empty (Option Graph)) 0 [] [] "spring" none = .noData ∧
    graphCreateAnimation varEnv "spring" (TraceStore.empty (Option Graph)) 0 = none ∧
    treeDisplaySnapshot varEnv 0 (TraceStore.empty Py) 0 [] "dot" none = .noData ∧
    treeCreateAnimation varEnv "dot" (TraceStore.empty Py) 0 = none :=
  c6_empty_store_no_data (TraceStore.empty (List Nat)) (TraceStore.empty (List Nat))
    (TraceStore.empty (List Nat)) (TraceStore.empty (List (Nat × Nat)))
    (TraceStore.empty (Option Graph)) (TraceStore.empty Py)
    rfl rfl rfl rfl rfl rfl 0 [] [] [] none true true true [] [] [] [] varEnv 0 "dot" []

/-! ## Claim C2 — per-step layout caching in animations -/

/-- C2 counterexample: the tree animation `update` recomputes the layout
at every call; with the randomized spring layout, rendering the frame of
step 0 at two different states of the random stream yields different
node positions, so the claimed "computed once and cached, identical
positions" property fails for the Tree variant. -/
theorem c2_counterexample :
    treeAnimUpdate varEnv "spring" leafStore 0 0 ≠
      treeAnimUpdate varEnv "spring" leafStore 0 1 := by
  decide

/-- C2 (amended): the Graph animation precomputes one layout per stored
snapshot before the animation starts and its `update` never calls a
layout function, so its frames are independent of the random stream at
call time; the Tree animation instead invokes the layout dispatch inside
every `update` call, with the random stream as it is at that moment. -/
theorem c2_graph_layout_cached_tree_recomputed :
    (∀ (st : TraceStore (Option Graph)) (posFrames : List (Option Pos))
        (frame r1 r2 : Nat),
        graphAnimUpdate st posFrames frame r1 = graphAnimUpdate st posFrames frame r2) ∧
    (∀ (env : LayoutEnv) (layout : String) (st : TraceStore Py) (frame rng : Nat)
        (g : Graph),
        treeToNetworkx (st.snapshots.getD frame Py.pynone) = .ok g →
        g.nodes.isEmpty = false →
        treeAnimUpdate env layout st frame rng =
          .ok (.drawn (chooseTreeLayout env layout g rng).1
                 (g.nodes.map (fun _ => "#aed9e6")) g.nodes
                 (animTitle ((st.metadata.get? frame).getD Metadata.empty)),
               (chooseTreeLayout env layout g rng).2)) := by
  constructor
  · intro st posFrames frame r1 r2
    rfl
  · intro env layout st frame rng g hok hne
    unfold treeAnimUpdate
    dsimp only
    rw [hok]
    rcases hc : chooseTreeLayout env layout g rng with ⟨p, r2⟩
    simp [hne, hc]

/-- The canonical graph of the one-node tree `leafTree`. -/
def leafG : Graph := ⟨[(0, "1")], []⟩

/-- C2 witness: the graph animation frame for step 0 is independent of
the random stream, and the tree animation frame for step 0 equals a
fresh layout call at the stream state of the call. -/
theorem c2_witness :
    graphAnimUpdate (TraceStore.empty (Option Graph)) [] 0 0 =
      graphAnimUpdate (TraceStore.empty (Option Graph)) [] 0 5 ∧
    treeAnimUpdate varEnv "spring" leafStore 0 7 =
      .ok (.drawn (chooseTreeLayout varEnv "spring" leafG 7).1
             (leafG.nodes.map (fun _ => "#aed9e6")) leafG.nodes
             (animTitle ((leafStore.metadata.get? 0).getD Metadata.empty)),
           (chooseTreeLayout varEnv "spring" leafG 7).2) :=
  ⟨c2_graph_layout_cached_tree_recomputed.1 (TraceStore.empty (Option Graph)) [] 0 0 5,
   c2_graph_layout_cached_tree_recomputed.2 varEnv "spring" leafStore 0 7 leafG rfl (by decide)⟩

/-! ## Claim C3 — the trace store records an immutable history -/

/-- Running a concatenation of event sequences runs them one after the
other. -/
theorem runOps_append {α : Type} (live : α) (st : TraceStore α)
    (ops1 ops2 : List (TraceOp α)) :
    runOps live st (ops1 ++ ops2) =
      runOps (runOps live st ops1).1 (runOps live st ops1).2 ops2 := by
  induction ops1 generalizing live st with
  | nil => rfl
  | cons op ops ih =>
    cases op with
    | capture d =>
        rw [List.cons_append]
        exact ih live (st.capture live d [])
    | mutate f =>
        rw [List.cons_append]
        exact ih (f live) st

/-- The snapshots after a run are the old ones followed by the values
live at each capture. -/
theorem runOps_snapshots {α : Type} (live : α) (st : TraceStore α)
    (ops : List (TraceOp α)) :
    (runOps live st ops).2.snapshots = st.snapshots ++ capturedValues live ops := by
  induction ops generalizing live st with
  | nil => simp [runOps, capturedValues]
  | cons op ops ih =>
    cases op with
    | capture d => simp [runOps, capturedValues, ih, TraceStore.capture]
    | mutate f => simp [runOps, capturedValues, ih]

/-- The metadata after a run are the old entries followed by the
captured ones, with steps counted from the old store size. -/
theorem runOps_metadata {α : Type} (live : α) (st : TraceStore α)
    (ops : List (TraceOp α)) :
    (runOps live st ops).2.metadata =
      st.metadata ++ capturedMd st.snapshots.length ops := by
  induction ops generalizing live st with
  | nil => simp [runOps, capturedMd]
  | cons op ops ih =>
    cases op with
    | capture d => simp [runOps, capturedMd, ih, TraceStore.capture]
    | mutate f => simp [runOps, capturedMd, ih]

/-- One captured value per capture call. -/
theorem capturedValues_length {α : Type} (live : α) (ops : List (TraceOp α)) :
    (capturedValues live ops).length = countCaptures ops := by
  induction ops generalizing live with
  | nil => rfl
  | cons op ops ih =>
    cases op with
    | capture d => simp [capturedValues, countCaptures, ih]
    | mutate f => simp [capturedValues, countCaptures, ih]

/-- One metadata entry per capture call. -/
theorem capturedMd_length {α : Type} (n : Nat) (ops : List (TraceOp α)) :
    (capturedMd n ops : List Metadata).length = countCaptures ops := by
  induction ops generalizing n with
  | nil => rfl
  | cons op ops ih =>
    cases op with
    | capture d => simp [capturedMd, countCaptures, ih]
    | mutate f => simp [capturedMd, countCaptures, ih]

/-- `get_snapshot` at an in-range non-negative index returns the stored
pair at that index. -/
theorem getSnapshot_in_range {α : Type} (st : TraceStore α) (i : Nat)
    (hi : i < st.snapshots.length) :
    st.getSnapshot i =
      .ok (st.snapshots.get? i, (st.metadata.get? i).getD Metadata.empty) := by
  unfold TraceStore.getSnapshot
  rw [if_neg, if_neg, if_pos]
  · simp
  · constructor
    · exact Int.natCast_nonneg i
    · exact_mod_cast hi
  · omega
  · intro hemp
    rw [List.isEmpty_iff] at hemp
    rw [hemp] at hi
    simp at hi

/-- C3: starting from an empty Trace Store, after any interleaving of
`capture` calls and mutations of the live object the store length equals
the number of captures; `get_snapshot(i)` returns exactly the i-th
captured copy (the live value as it was at that capture) together with
its step-i metadata; and running any further events — mutations
included — leaves `get_snapshot(i)` unchanged. -/
theorem c3_trace_store_immutable_history {α : Type} (init : α)
    (ops more : List (TraceOp α)) (i : Nat) (hi : i < countCaptures ops) :
    ((runOps init (TraceStore.empty α) ops).2.snapshots.length = countCaptures ops) ∧
    ((runOps init (TraceStore.empty α) ops).2.getSnapshot i =
       .ok ((capturedValues init ops).get? i,
            ((capturedMd 0 ops).get? i).getD Metadata.empty)) ∧
    ((runOps init (TraceStore.empty α) (ops ++ more)).2.getSnapshot i =
       (runOps init (TraceStore.empty α) ops).2.getSnapshot i) := by
  have hsnap : (runOps init (TraceStore.empty α) ops).2.snapshots =
      capturedValues init ops := by
    simpa [TraceStore.empty] using runOps_snapshots init (TraceStore.empty α) ops
  have hmd : (runOps init (TraceStore.empty α) ops).2.metadata = capturedMd 0 ops := by
    simpa [TraceStore.empty] using runOps_metadata init (TraceStore.empty α) ops
  have hlen : (runOps init (TraceStore.empty α) ops).2.snapshots.length =
      countCaptures ops := by
    rw [hsnap, capturedValues_length]
  have hmain : (runOps init (TraceStore.empty α) ops).2.getSnapshot i =
      .ok ((capturedValues init ops).get? i,
           ((capturedMd 0 ops).get? i).getD Metadata.empty) := by
    rw [getSnapshot_in_range _ i (by rw [hlen]; exact hi), hsnap, hmd]
  refine ⟨hlen, hmain, ?_⟩
  have hext := runOps_append init (TraceStore.empty α) ops more
  have hsnap2 : (runOps init (TraceStore.empty α) (ops ++ more)).2.snapshots =
      capturedValues init ops ++
        capturedValues (runOps init (TraceStore.empty α) ops).1 more := by
    rw [hext, runOps_snapshots, hsnap]
  have hmd2 : (runOps init (TraceStore.empty α) (ops ++ more)).2.metadata =
      capturedMd 0 ops ++
        capturedMd (runOps init (TraceStore.empty α) ops).2.snapshots.length more := by
    rw [hext, runOps_metadata, hmd]
  have hilt : i < (capturedValues init ops).length := by
    rw [capturedValues_length]; exact hi
  have hilt2 : i < (capturedMd 0 ops : List Metadata).length := by
    rw [capturedMd_length]; exact hi
  have hlen2 : i < (runOps init (TraceStore.empty α) (ops ++ more)).2.snapshots.length := by
    rw [hsnap2, List.length_append]
    omega
  rw [getSnapshot_in_range _ i hlen2, hmain, hsnap2, hmd2,
    List.get?_append hilt, List.get?_append hilt2]

/-- Events for the C3 witness: capture 5, mutate to 6, capture 6. -/
def c3Ops : List (TraceOp Nat) :=
  [.capture none, .mutate (fun x => x + 1), .capture (some "x")]

/-- Later events for the C3 witness: a further mutation. -/
def c3More : List (TraceOp Nat) := [.mutate (fun x => x * 2)]

/-- C3 witness: with the concrete event sequence `c3Ops`, the store
holds 2 snapshots, step 0 returns the first captured value, and the
later mutation in `c3More` does not change it. -/
theorem c3_witness :
    ((runOps 5 (TraceStore.empty Nat) c3Ops).2.snapshots.length = countCaptures c3Ops) ∧
    ((runOps 5 (TraceStore.empty Nat) c3Ops).2.getSnapshot 0 =
       .ok ((capturedValues 5 c3Ops).get? 0,
            ((capturedMd 0 c3Ops).get? 0).getD Metadata.empty)) ∧
    ((runOps 5 (TraceStore.empty Nat) (c3Ops ++ c3More)).2.getSnapshot 0 =
       (runOps 5 (TraceStore.empty Nat) c3Ops).2.getSnapshot 0) :=
  c3_trace_store_immutable_history 5 c3Ops c3More 0 (by decide)

end AlgoFresco
